import Mathlib

/-!
Verification of the fraud-detection browser extension's link discovery,
scoring-coordination and navigation-gating engine.

The definitions below are a shallow embedding of `src/extension/content.js`
and `src/extension/background.js`.  DOM elements are modelled by the record
`LinkElement`, the module-level `analyzedLinks` set by a `List String`,
network calls by explicit fetch-outcome oracles, and JavaScript's `NaN`
semantics for `parseInt` by `Option Int` (with `none` playing NaN /
`undefined`, whose numeric comparisons are all false).
-/

namespace FraudDetection

/-- JS `parseInt(s, 10)` (as used at content.js:128): skip leading
whitespace, accept an optional sign, then read the longest leading run of
decimal digits; the result is NaN (`none`) when no digit is read. -/
def digitsToNat (ds : List Char) : Nat :=
  ds.foldl (fun acc c => acc * 10 + (c.toNat - 48)) 0

/-- Parse an optional-sign digit run; `sign` is `1` or `-1`. -/
def parseIntCore (cs : List Char) (sign : Int) : Option Int :=
  let ds := cs.takeWhile Char.isDigit
  if ds.isEmpty then none else some (sign * (digitsToNat ds : Int))

/-- The model of JavaScript `parseInt` in base 10. -/
def parseIntJS (s : String) : Option Int :=
  match s.data.dropWhile Char.isWhitespace with
  | '-' :: rest => parseIntCore rest (-1)
  | '+' :: rest => parseIntCore rest 1
  | cs => parseIntCore cs 1

/-- JS `x >= k` where `x` may be NaN (`none`): every comparison with NaN is
false. -/
def geNaN (x : Option Int) (k : Int) : Bool :=
  match x with
  | none => false
  | some v => decide (v ≥ k)

/-- JS `s || d` on strings: the empty string is falsy, every other string
truthy; reading an absent attribute gives `null`, also falsy. -/
def jsOrDefault (a : Option String) (d : String) : String :=
  match a with
  | none => d
  | some s => if s = "" then d else s

/-- JS string interpolation of a possibly-`undefined` number. -/
def jsNumToString (x : Option Int) : String :=
  match x with
  | none => "undefined"
  | some v => toString v

/-- JS string interpolation of a possibly-`undefined` string. -/
def jsStrToString (x : Option String) : String :=
  match x with
  | none => "undefined"
  | some s => s

/-- The outcome of the navigation gate on a click, `classify` in the spec. -/
inductive GateAction
  | allow
  | warn
  | deny
deriving DecidableEq, Repr

/-- The shared policy of the navigation gate: the threshold structure of
content.js:132 (`riskScore >= 70`) and content.js:141 (`riskScore >= 40`),
on a parsed score that may be NaN. -/
def classify (score : Option Int) : GateAction :=
  if geNaN score 70 then .deny
  else if geNaN score 40 then .warn
  else .allow

/-- A document anchor element as the content script sees and mutates it:
its resolved `href`, the two data attributes, the inline styles written by
`addRiskIndicator`, the tooltip `title` and the appended badge glyphs. -/
structure LinkElement where
  href : String
  dataRiskScore : Option String
  dataRiskLevel : Option String
  border : Option String
  backgroundColor : Option String
  title : Option String
  badges : List String
deriving DecidableEq, Repr

/-- An element fresh from the parser: no annotation of any kind. -/
def freshLink (href : String) : LinkElement :=
  { href := href
    dataRiskScore := none
    dataRiskLevel := none
    border := none
    backgroundColor := none
    title := none
    badges := [] }

/-- What a click on a link does, observably: whether the handler called
`preventDefault` / `stopPropagation`, the argument triple passed to
`showWarningModal` if it was invoked, and whether the `confirm` dialog was
shown. -/
structure ClickResult where
  defaultPrevented : Bool
  propagationStopped : Bool
  modal : Option (String × Option Int × String)
  confirmShown : Bool
deriving DecidableEq, Repr

/-- The click handler leaving the event untouched. -/
def noInterception : ClickResult :=
  { defaultPrevented := false
    propagationStopped := false
    modal := none
    confirmShown := false }

/-- `handleLinkClick` (content.js:123-155) for a click landing on link
element `el`; `userProceeds` is the answer the user would give to the
`confirm` dialog if it is shown. -/
def handleLinkClick (el : LinkElement) (userProceeds : Bool) : ClickResult :=
  let riskScore := parseIntJS (jsOrDefault el.dataRiskScore "0")
  let riskLevel := jsOrDefault el.dataRiskLevel "UNKNOWN"
  if geNaN riskScore 70 then
    { defaultPrevented := true
      propagationStopped := true
      modal := some (el.href, riskScore, riskLevel)
      confirmShown := false }
  else if geNaN riskScore 40 then
    if userProceeds then
      { noInterception with confirmShown := true }
    else
      { defaultPrevented := true
        propagationStopped := true
        modal := none
        confirmShown := true }
  else
    noInterception

/-- The two buttons wired up by `showWarningModal` (content.js:194-212,
218-227): `#closeWarning` and `#reportThreat`. -/
inductive ModalButton
  | closeWarning
  | reportThreat
deriving DecidableEq, Repr

/-- The warning surface built by `showWarningModal` (content.js:158-228):
the data interpolated into the markup and the buttons present. -/
structure WarningModal where
  url : String
  score : Option Int
  level : String
  buttons : List ModalButton
deriving DecidableEq, Repr

def showWarningModal (url : String) (score : Option Int) (level : String) :
    WarningModal :=
  { url := url
    score := score
    level := level
    buttons := [.closeWarning, .reportThreat] }

/-- Observable effect of activating one modal button (content.js:219-227).
`navigationTriggered` records whether the handler resumes or re-issues the
blocked navigation — something the modal could in principle do. -/
structure ModalEffect where
  modalRemoved : Bool
  alertShown : Bool
  navigationTriggered : Bool
deriving DecidableEq, Repr

def modalButtonEffect : ModalButton → ModalEffect
  | .closeWarning => { modalRemoved := true, alertShown := false, navigationTriggered := false }
  | .reportThreat => { modalRemoved := true, alertShown := true, navigationTriggered := false }

/-- Character-list prefix test (kernel-reducible model of
`String.startsWith`). -/
def charsLeadWith : List Char → List Char → Bool
  | [], _ => true
  | _ :: _, [] => false
  | c :: cs, d :: ds => c = d && charsLeadWith cs ds

/-- `url.startsWith('http://') || url.startsWith('https://')`
(content.js:54). -/
def isHttp (url : String) : Bool :=
  charsLeadWith "http://".data url.data || charsLeadWith "https://".data url.data

/-- The remote scoring response as JavaScript sees it after
`response.json()`: each field may be `undefined` (`none`) when the payload
lacks it, e.g. for a non-2xx JSON error body. -/
structure JsScoreResult where
  risk_score : Option Int
  risk_level : Option String
  recommendation : Option String
deriving DecidableEq, Repr

/-- Outcome of `fetch(...)` + `await response.json()` for one request:
either an exception is thrown (network failure, or a body that is not
valid JSON), or some JSON value is obtained — the code never inspects
`response.ok`, so a non-success response with a JSON body also lands in
`jsonOf`. -/
inductive FetchOutcome
  | throwErr
  | jsonOf (result : JsScoreResult)
deriving DecidableEq, Repr

/-- `addRiskIndicator` tier glyph (content.js:86-102). -/
def riskEmoji (score : Option Int) : String :=
  if geNaN score 70 then "🚨"
  else if geNaN score 40 then "⚠️"
  else if geNaN score 20 then "ℹ️"
  else "✅"

/-- `addRiskIndicator` tier colour (content.js:86-102); computed by the
source but used by none of its later statements. -/
def riskColor (score : Option Int) : String :=
  if geNaN score 70 then "#ef4444"
  else if geNaN score 40 then "#f59e0b"
  else if geNaN score 20 then "#3b82f6"
  else "#10b981"

/-- `addRiskIndicator(linkElement, result)` (content.js:82-120): inline
border/background for the top two tiers only, a tooltip for every score,
and a badge appended exactly when `score >= 40`. -/
def addRiskIndicator (el : LinkElement) (result : JsScoreResult) :
    LinkElement :=
  let score := result.risk_score
  let el1 :=
    if geNaN score 70 then
      { el with border := some "2px solid #ef4444", backgroundColor := some "#fee2e2" }
    else if geNaN score 40 then
      { el with border := some "2px solid #f59e0b", backgroundColor := some "#fef3c7" }
    else el
  let el2 :=
    { el1 with title := some (riskEmoji score ++ " Risk Score: " ++
        jsNumToString score ++ "/100 - " ++ jsStrToString result.risk_level) }
  if geNaN score 40 then { el2 with badges := el2.badges ++ [riskEmoji score] }
  else el2

/-- The success continuation of `analyzeLinkElement` (content.js:67-74):
visual indicator, then the two durable data attributes. -/
def annotateOnScored (el : LinkElement) (result : JsScoreResult) :
    LinkElement :=
  let el1 := addRiskIndicator el result
  { el1 with
      dataRiskScore := some (jsNumToString result.risk_score)
      dataRiskLevel := some (jsStrToString result.risk_level) }

/-- Trace events of one `analyzeLinkElement` call, in program order: the
`analyzedLinks.has` membership check, the `analyzedLinks.add` insertion,
and the `fetch` dispatch (the suspension point). -/
inductive AnalyzeEvent
  | memCheck (url : String) (found : Bool)
  | insert (url : String)
  | netRequest (url : String)
deriving DecidableEq, Repr

/-- Log lines the content script can emit on this path. -/
inductive ContentLog
  | linkAnalysisFailed
deriving DecidableEq, Repr

/-- Result of one `analyzeLinkElement` call: the updated `analyzedLinks`
index, the (possibly annotated) element, the trace of index/network events
in program order, and the console output. -/
structure AnalyzeStep where
  st : List String
  el : LinkElement
  events : List AnalyzeEvent
  logs : List ContentLog
deriving DecidableEq, Repr

/-- `analyzeLinkElement(linkElement)` (content.js:45-79) against index
state `st`, with the network's behaviour for this URL given by `fetch`.
The membership check, the protocol check and the insertion are the
statements before the first `await`; everything from the `fetch` on is
behind the suspension point. -/
def analyzeLinkElement (st : List String) (el : LinkElement)
    (fetch : FetchOutcome) : AnalyzeStep :=
  if el.href ∈ st then
    { st := st, el := el, events := [.memCheck el.href true], logs := [] }
  else if !(isHttp el.href) then
    { st := st, el := el, events := [.memCheck el.href false], logs := [] }
  else
    match fetch with
    | .throwErr =>
        { st := el.href :: st
          el := el
          events := [.memCheck el.href false, .insert el.href, .netRequest el.href]
          logs := [.linkAnalysisFailed] }
    | .jsonOf result =>
        { st := el.href :: st
          el := annotateOnScored el result
          events := [.memCheck el.href false, .insert el.href, .netRequest el.href]
          logs := [] }

/-- Feed a sequence of (element, fetch-outcome) submissions — initial scan,
mutation watcher, or both interleaved — through `analyzeLinkElement`,
accumulating the event trace.  Elements are threaded through unchanged
because only the index and the dispatch decisions matter here. -/
def runSubmissions : List String → List (LinkElement × FetchOutcome) →
    List String × List AnalyzeEvent
  | st, [] => (st, [])
  | st, (el, f) :: rest =>
      let p := analyzeLinkElement st el f
      let q := runSubmissions p.st rest
      (q.1, p.events ++ q.2)

/-- The URLs of the network requests actually dispatched in a trace. -/
def dispatches (evs : List AnalyzeEvent) : List String :=
  evs.filterMap (fun e =>
    match e with
    | .netRequest u => some u
    | _ => none)

/-- `scanAllLinks` (content.js:32-42): for the anchors present in document
order, schedule `analyzeLinkElement` on link `i` via
`setTimeout(..., index * 100)`.  Result: the (delay in ms, element)
schedule. -/
def scanAllLinks (links : List LinkElement) : List (Nat × LinkElement) :=
  links.enum.map (fun p => (p.1 * 100, p.2))

/-- A DOM node delivered in `mutation.addedNodes`: an element with a tag,
an optional `href`, and children, or a non-element node (modelled as
text, `nodeType != 1`). -/
inductive DomNode
  | text (s : String)
  | element (tag : String) (href : Option String) (children : List DomNode)
deriving Repr

/-- The root-node check of the observer callback (content.js:237):
`node.tagName === 'A' && node.href`; an anchor with an href attribute has
a truthy (absolute, non-empty) `href` property. -/
def rootLink : String → Option String → List String
  | "A", some h => [h]
  | _, _ => []

mutual

/-- Anchor hrefs in a subtree, root included, in document order. -/
def linksIn : DomNode → List String
  | .text _ => []
  | .element tag href children => rootLink tag href ++ linksInChildren children

/-- Anchor hrefs of `querySelectorAll('a[href]')` over a node list. -/
def linksInChildren : List DomNode → List String
  | [] => []
  | n :: ns => linksIn n ++ linksInChildren ns

end

/-- The observer callback body for one added node (content.js:234-244):
if the node is an element, dispatch it when it is itself a qualifying
anchor, then dispatch each qualifying descendant; every dispatch is
synchronous in the callback — delay 0, no `setTimeout` on this path. -/
def handleAddedNode : DomNode → List (Nat × String)
  | .text _ => []
  | .element tag href children =>
      (rootLink tag href).map (fun u => (0, u)) ++
      (linksInChildren children).map (fun u => (0, u))

/-- The persisted statistics object of background.js:11-15. -/
structure Stats where
  urlsScanned : Nat
  threatsBlocked : Nat
  lastScan : Option String
deriving DecidableEq, Repr

/-- One `chrome.notifications.create` call. -/
structure BgNotification where
  title : String
  message : String
  priority : Nat
deriving DecidableEq, Repr

/-- `showNotification(result)` (background.js:128-147). -/
def showNotification (result : JsScoreResult) : BgNotification :=
  let emoji :=
    if geNaN result.risk_score 70 then "🚨"
    else if geNaN result.risk_score 40 then "⚠️"
    else "✅"
  let priority : Nat :=
    if geNaN result.risk_score 70 then 2
    else if geNaN result.risk_score 40 then 1
    else 0
  { title := emoji ++ " " ++ jsStrToString result.risk_level
    message := "Risk Score: " ++ jsNumToString result.risk_score ++ "/100\n" ++
      jsStrToString result.recommendation
    priority := priority }

/-- Observable effects of one `analyzeURL` run: the scoring requests
issued, the `chrome.storage.local.set` snapshots, the notifications
raised, and the URLs the target tab is navigated to. -/
structure BgEffects where
  requests : List String
  storageWrites : List Stats
  notifications : List BgNotification
  tabUpdates : List String
deriving DecidableEq, Repr

/-- `analyzeURL(url, tab)` (background.js:60-104) from stats state
`stats`, with the clock reading `now` and the network's behaviour for this
request given by `fetch`.  There is no dedup ledger on this path: the
request is issued unconditionally before any branching. -/
def analyzeURL (stats : Stats) (now url : String) (fetch : FetchOutcome) :
    Stats × BgEffects :=
  match fetch with
  | .throwErr =>
      (stats,
       { requests := [url]
         storageWrites := []
         notifications := [{ title := "Analysis Failed"
                             message := "Could not connect to fraud detection server."
                             priority := 0 }]
         tabUpdates := [] })
  | .jsonOf result =>
      let stats1 : Stats :=
        { urlsScanned := stats.urlsScanned + 1
          threatsBlocked :=
            stats.threatsBlocked + (if geNaN result.risk_score 70 then 1 else 0)
          lastScan := some now }
      if geNaN result.risk_score 70 then
        (stats1,
         { requests := [url]
           storageWrites := [stats1]
           notifications := [showNotification result,
             { title := "🚨 THREAT BLOCKED"
               message := "High-risk URL detected and blocked!\nRisk Score: " ++
                 jsNumToString result.risk_score ++ "/100"
               priority := 2 }]
           tabUpdates := ["about:blank"] })
      else
        (stats1,
         { requests := [url]
           storageWrites := [stats1]
           notifications := [showNotification result]
           tabUpdates := [] })

/-- Occurrence count of a URL in a dispatch list. -/
def countUrl (url : String) : List String → Nat
  | [] => 0
  | u :: us => (if u = url then 1 else 0) + countUrl url us

/-!  Theorems.  -/

theorem dispatches_append (a b : List AnalyzeEvent) :
    dispatches (a ++ b) = dispatches a ++ dispatches b := by
  simp [dispatches]

theorem countUrl_append (url : String) (a b : List String) :
    countUrl url (a ++ b) = countUrl url a + countUrl url b := by
  induction a with
  | nil => simp [countUrl]
  | cons x xs ih => simp [countUrl, ih]; omega

/-- Claim C1: the navigation-gate classification is total over scores and
their absence — on 0-100, `classify` is DENY iff the score is at least 70,
WARN iff it is in 40-69, ALLOW otherwise; and a click on a link without a
stored score is classified ALLOW and proceeds uninterfered. -/
theorem claim_c1_classify_total (s : Int) (h0 : 0 ≤ s) (h100 : s ≤ 100) :
    (classify (some s) = .deny ↔ 70 ≤ s) ∧
    (classify (some s) = .warn ↔ 40 ≤ s ∧ s < 70) ∧
    (classify (some s) = .allow ↔ s < 40) ∧
    (∀ (el : LinkElement) (p : Bool), el.dataRiskScore = none →
      classify (parseIntJS (jsOrDefault el.dataRiskScore "0")) = .allow ∧
      handleLinkClick el p = noInterception) := by
  refine ⟨?_, ?_, ?_, ?_⟩
  · by_cases h70 : 70 ≤ s <;> by_cases h40 : 40 ≤ s <;>
      simp [classify, geNaN, h70, h40] <;> omega
  · by_cases h70 : 70 ≤ s <;> by_cases h40 : 40 ≤ s <;>
      simp [classify, geNaN, h70, h40] <;> omega
  · by_cases h70 : 70 ≤ s <;> by_cases h40 : 40 ≤ s <;>
      simp [classify, geNaN, h70, h40] <;> omega
  · intro el p hnone
    rw [hnone]
    constructor
    · rfl
    · simp [handleLinkClick, hnone, jsOrDefault, parseIntJS, parseIntCore,
        digitsToNat, geNaN, noInterception]

/-- Concrete instance of C1: 85 is DENY, and a click on an unscored link is
not intercepted. -/
theorem claim_c1_witness :
    (0 : Int) ≤ 85 ∧ (85 : Int) ≤ 100 ∧ classify (some 85) = .deny ∧
    handleLinkClick (freshLink "http://example.com/") true = noInterception := by
  refine ⟨by decide, by decide, ?_, ?_⟩
  · exact (claim_c1_classify_total 85 (by decide) (by decide)).1.mpr (by decide)
  · exact ((claim_c1_classify_total 85 (by decide) (by decide)).2.2.2
      (freshLink "http://example.com/") true rfl).2

/-- Claim C2: a click on an element whose stored score parses to at least
70 has its default action cancelled and its propagation stopped, the
Warning Surface is invoked with the element's URL, score and level, the
modal offers exactly the dismiss and report buttons, and no modal button
triggers a navigation. -/
theorem claim_c2_deny_blocks (el : LinkElement) (p : Bool) (a : String)
    (s : Int) (ha : el.dataRiskScore = some a) (hp : parseIntJS a = some s)
    (h70 : 70 ≤ s) :
    handleLinkClick el p =
      { defaultPrevented := true
        propagationStopped := true
        modal := some (el.href, some s, jsOrDefault el.dataRiskLevel "UNKNOWN")
        confirmShown := false } ∧
    (showWarningModal el.href (some s)
        (jsOrDefault el.dataRiskLevel "UNKNOWN")).buttons =
      [.closeWarning, .reportThreat] ∧
    (∀ b : ModalButton, (modalButtonEffect b).navigationTriggered = false) := by
  have hne : a ≠ "" := by
    intro h
    rw [h] at hp
    simp [parseIntJS, parseIntCore] at hp
  have hparse : parseIntJS (jsOrDefault el.dataRiskScore "0") = some s := by
    rw [ha]; simp [jsOrDefault, hne, hp]
  refine ⟨?_, rfl, ?_⟩
  · simp [handleLinkClick, hparse, geNaN, h70]
  · intro b; cases b <;> rfl

/-- Concrete instance of C2 at score 85. -/
theorem claim_c2_witness :
    handleLinkClick
      { freshLink "http://evil.example/" with
          dataRiskScore := some "85", dataRiskLevel := some "HIGH RISK" } true =
      { defaultPrevented := true
        propagationStopped := true
        modal := some ("http://evil.example/", some 85, "HIGH RISK")
        confirmShown := false } ∧
    (showWarningModal "http://evil.example/" (some 85) "HIGH RISK").buttons =
      [.closeWarning, .reportThreat] ∧
    (∀ b : ModalButton, (modalButtonEffect b).navigationTriggered = false) :=
  claim_c2_deny_blocks
    { freshLink "http://evil.example/" with
        dataRiskScore := some "85", dataRiskLevel := some "HIGH RISK" }
    true "85" 85 rfl (by decide) (by decide)

/-- Claim C5: a click on an element whose stored score parses into the
40-69 band shows the synchronous confirmation and no modal; declining
cancels the default action and propagation exactly as the DENY case does,
accepting leaves the event untouched apart from the dialog. -/
theorem claim_c5_warn_confirm (el : LinkElement) (p : Bool) (a : String)
    (s : Int) (ha : el.dataRiskScore = some a) (hp : parseIntJS a = some s)
    (h40 : 40 ≤ s) (h70 : s < 70) :
    (handleLinkClick el p).confirmShown = true ∧
    (handleLinkClick el p).modal = none ∧
    handleLinkClick el false =
      { defaultPrevented := true
        propagationStopped := true
        modal := none
        confirmShown := true } ∧
    handleLinkClick el true = { noInterception with confirmShown := true } := by
  have hne : a ≠ "" := by
    intro h
    rw [h] at hp
    simp [parseIntJS, parseIntCore] at hp
  have hparse : parseIntJS (jsOrDefault el.dataRiskScore "0") = some s := by
    rw [ha]; simp [jsOrDefault, hne, hp]
  have hlt : ¬ (70 ≤ s) := by omega
  refine ⟨?_, ?_, ?_, ?_⟩ <;>
    cases p <;>
      simp [handleLinkClick, hparse, geNaN, h40, hlt, noInterception]

/-- Concrete instance of C5 at score 55, for both answers to the
confirmation. -/
theorem claim_c5_witness :
    (handleLinkClick
        { freshLink "http://odd.example/" with dataRiskScore := some "55" }
        false).confirmShown = true ∧
    handleLinkClick
        { freshLink "http://odd.example/" with dataRiskScore := some "55" }
        false =
      { defaultPrevented := true
        propagationStopped := true
        modal := none
        confirmShown := true } ∧
    handleLinkClick
        { freshLink "http://odd.example/" with dataRiskScore := some "55" }
        true = { noInterception with confirmShown := true } := by
  refine ⟨?_, ?_, ?_⟩
  · exact (claim_c5_warn_confirm
      { freshLink "http://odd.example/" with dataRiskScore := some "55" }
      false "55" 55 rfl (by decide) (by decide) (by decide)).1
  · exact (claim_c5_warn_confirm
      { freshLink "http://odd.example/" with dataRiskScore := some "55" }
      false "55" 55 rfl (by decide) (by decide) (by decide)).2.2.1
  · exact (claim_c5_warn_confirm
      { freshLink "http://odd.example/" with dataRiskScore := some "55" }
      true "55" 55 rfl (by decide) (by decide) (by decide)).2.2.2

/-- Claim C10: when the stored data-risk-score attribute does not parse as
a number (JS `parseInt` yields NaN), the click handler performs no
interception at all — the gate fails open under a malformed or tampered
annotation. -/
theorem claim_c10_nan_fails_open (el : LinkElement) (p : Bool) (a : String)
    (ha : el.dataRiskScore = some a) (hnan : parseIntJS a = none) :
    handleLinkClick el p = noInterception := by
  by_cases hne : a = ""
  · subst hne
    simp [handleLinkClick, ha, jsOrDefault, parseIntJS, parseIntCore,
      digitsToNat, geNaN, noInterception]
  · have hparse : parseIntJS (jsOrDefault el.dataRiskScore "0") = none := by
      rw [ha]; simp [jsOrDefault, hne, hnan]
    simp [handleLinkClick, hparse, geNaN, noInterception]

/-- Concrete instance of C10 with the tampered attribute "abc". -/
theorem claim_c10_witness :
    handleLinkClick
      { freshLink "http://x.example/" with dataRiskScore := some "abc" }
      true = noInterception :=
  claim_c10_nan_fails_open
    { freshLink "http://x.example/" with dataRiskScore := some "abc" }
    true "abc" rfl (by decide)

theorem analyzeLinkElement_st (st : List String) (el : LinkElement)
    (f : FetchOutcome) :
    (analyzeLinkElement st el f).st =
      if el.href ∈ st ∨ isHttp el.href = false then st else el.href :: st := by
  unfold analyzeLinkElement
  by_cases h1 : el.href ∈ st
  · simp [h1]
  · by_cases h2 : isHttp el.href
    · cases f <;> simp [h1, h2]
    · have hb : isHttp el.href = false := by
        revert h2; cases isHttp el.href <;> simp
      simp [h1, hb]

theorem analyzeLinkElement_events (st : List String) (el : LinkElement)
    (f : FetchOutcome) :
    (analyzeLinkElement st el f).events =
      if el.href ∈ st then [.memCheck el.href true]
      else if isHttp el.href = false then [.memCheck el.href false]
      else [.memCheck el.href false, .insert el.href, .netRequest el.href] := by
  unfold analyzeLinkElement
  by_cases h1 : el.href ∈ st
  · simp [h1]
  · by_cases h2 : isHttp el.href
    · cases f <;> simp [h1, h2]
    · have hb : isHttp el.href = false := by
        revert h2; cases isHttp el.href <;> simp
      simp [h1, hb]

theorem analyzeLinkElement_dispatches (st : List String) (el : LinkElement)
    (f : FetchOutcome) :
    dispatches (analyzeLinkElement st el f).events =
      if el.href ∈ st ∨ isHttp el.href = false then [] else [el.href] := by
  unfold analyzeLinkElement
  by_cases h1 : el.href ∈ st
  · simp [h1, dispatches]
  · by_cases h2 : isHttp el.href
    · cases f <;> simp [h1, h2, dispatches]
    · simp [h1, h2, dispatches]

theorem runSubmissions_countUrl (url : String)
    (subs : List (LinkElement × FetchOutcome)) :
    ∀ st : List String,
      countUrl url (dispatches (runSubmissions st subs).2) =
        if isHttp url = true ∧ url ∈ subs.map (fun q => q.1.href) ∧ url ∉ st
        then 1 else 0 := by
  induction subs with
  | nil => intro st; simp [runSubmissions, dispatches, countUrl]
  | cons hd rest ih =>
    intro st
    obtain ⟨el, f⟩ := hd
    have hrun : runSubmissions st ((el, f) :: rest) =
        ((runSubmissions (analyzeLinkElement st el f).st rest).1,
          (analyzeLinkElement st el f).events ++
            (runSubmissions (analyzeLinkElement st el f).st rest).2) := rfl
    rw [hrun]
    simp only [dispatches_append, countUrl_append, analyzeLinkElement_dispatches,
      analyzeLinkElement_st, ih, List.map_cons, List.mem_cons]
    by_cases h1 : el.href ∈ st ∨ isHttp el.href = false
    · simp only [h1, if_true, countUrl]
      by_cases heq : url = el.href
      · subst heq
        rcases h1 with hmem | hhttp
        · simp [hmem]
        · simp [hhttp]
      · have heq' : ¬ el.href = url := fun h => heq h.symm
        split_ifs with hA hB <;> first | rfl | (exfalso; tauto)
    · push_neg at h1
      obtain ⟨hnm, hht⟩ := h1
      have hht' : isHttp el.href = true := by
        cases h : isHttp el.href
        · exact absurd h hht
        · rfl
      simp only [hnm, hht, if_false, or_false, countUrl, countUrl_append]
      by_cases heq : url = el.href
      · subst heq
        simp [hht', hnm, List.mem_cons, countUrl]
      · have heq' : ¬ el.href = url := fun h => heq h.symm
        have hc : (url ∈ el.href :: st) ↔ (url = el.href ∨ url ∈ st) :=
          List.mem_cons
        rw [if_neg heq', Nat.zero_add]
        split_ifs with hA hB <;> first | rfl | (exfalso; tauto)

theorem events_insert_lt_net (u : String) (b : Bool) (i j : Nat)
    (h1 : [AnalyzeEvent.memCheck u b, .insert u, .netRequest u].get? i =
      some (.insert u))
    (h2 : [AnalyzeEvent.memCheck u b, .insert u, .netRequest u].get? j =
      some (.netRequest u)) :
    i < j := by
  have hi : i = 1 := by
    rcases i with _ | _ | _ | i <;> simp at h1 <;> rfl
  have hj : j = 2 := by
    rcases j with _ | _ | _ | j <;> simp at h2 <;> rfl
  omega

/-- Claim C3: submitting a canonical http(s) URL to the analysis pipeline
any number of times dispatches exactly one scoring request; every URL is
dispatched at most once over any submission sequence; and within one
`analyzeLinkElement` call the index insertion strictly precedes the
network request in program order, so the dedup decision is made before the
suspension point. -/
theorem claim_c3_dedup_single_dispatch
    (subs : List (LinkElement × FetchOutcome)) (url : String)
    (hhttp : isHttp url = true)
    (hmem : url ∈ subs.map (fun q => q.1.href)) :
    countUrl url (dispatches (runSubmissions [] subs).2) = 1 ∧
    (∀ u : String, countUrl u (dispatches (runSubmissions [] subs).2) ≤ 1) ∧
    (∀ (st : List String) (el : LinkElement) (f : FetchOutcome) (i j : Nat),
      (analyzeLinkElement st el f).events.get? i = some (.insert el.href) →
      (analyzeLinkElement st el f).events.get? j = some (.netRequest el.href) →
      i < j) := by
  refine ⟨?_, ?_, ?_⟩
  · rw [runSubmissions_countUrl]
    simp [hhttp, hmem]
  · intro u
    rw [runSubmissions_countUrl]
    split <;> omega
  · intro st el f i j h1 h2
    rw [analyzeLinkElement_events] at h1 h2
    by_cases hm : el.href ∈ st
    · rw [if_pos hm] at h1
      rcases i with _ | i <;> simp at h1
    · rw [if_neg hm] at h1 h2
      by_cases hh : isHttp el.href = false
      · rw [if_pos hh] at h1
        rcases i with _ | i <;> simp at h1
      · rw [if_neg hh] at h1 h2
        exact events_insert_lt_net el.href false i j h1 h2

/-- Concrete instance of C3: the same URL submitted three times (initial
scan twice, mutation watcher once) is dispatched exactly once. -/
theorem claim_c3_witness :
    isHttp "http://dup.example/" = true ∧
    countUrl "http://dup.example/"
      (dispatches (runSubmissions []
        [(freshLink "http://dup.example/", .throwErr),
          (freshLink "http://dup.example/", .jsonOf ⟨some 10, none, none⟩),
          (freshLink "http://dup.example/", .throwErr)]).2) = 1 := by
  refine ⟨by decide, ?_⟩
  exact (claim_c3_dedup_single_dispatch
    [(freshLink "http://dup.example/", .throwErr),
      (freshLink "http://dup.example/", .jsonOf ⟨some 10, none, none⟩),
      (freshLink "http://dup.example/", .throwErr)]
    "http://dup.example/" (by decide) (by decide)).1

/-- Refutation of claim C4 as stated: a scoring response whose body parses
as JSON but carries no `risk_score` — the spec's MalformedResponse, and
also what a non-2xx JSON error body produces, since the code never checks
`response.ok` — flows through the success path: the element receives a
`data-risk-score="undefined"` annotation attribute and a tooltip, and no
failure log entry is produced. -/
theorem claim_c4_counterexample :
    (analyzeLinkElement [] (freshLink "http://bad.example/")
        (.jsonOf ⟨none, none, none⟩)).el.dataRiskScore = some "undefined" ∧
    (analyzeLinkElement [] (freshLink "http://bad.example/")
        (.jsonOf ⟨none, none, none⟩)).el.title =
      some "✅ Risk Score: undefined/100 - undefined" ∧
    (analyzeLinkElement [] (freshLink "http://bad.example/")
        (.jsonOf ⟨none, none, none⟩)).logs = [] := by
  refine ⟨rfl, rfl, rfl⟩

/-- Claim C4 as amended: when the scoring request throws (network failure
or an unparseable body), the element is left completely unchanged, the
failure surfaces only as a log entry, the URL stays registered so no retry
is ever dispatched, and a subsequent click on the still-unannotated
element is not intercepted (fail open).  A response that parses as JSON
but lacks a numeric `risk_score` instead follows the success path: the
attributes are set to the string "undefined" and a tooltip is written, but
no border, background or badge is applied, and a subsequent click is still
not intercepted. -/
theorem claim_c4_amended (st : List String) (el : LinkElement) (p : Bool)
    (hfresh : el.dataRiskScore = none) (hhttp : isHttp el.href = true)
    (hnew : el.href ∉ st) :
    (analyzeLinkElement st el .throwErr).el = el ∧
    (analyzeLinkElement st el .throwErr).logs = [.linkAnalysisFailed] ∧
    (analyzeLinkElement st el .throwErr).st = el.href :: st ∧
    (∀ f' : FetchOutcome,
      dispatches (analyzeLinkElement
        (analyzeLinkElement st el .throwErr).st el f').events = []) ∧
    handleLinkClick (analyzeLinkElement st el .throwErr).el p =
      noInterception ∧
    (∀ (lvl rec : Option String),
      (analyzeLinkElement st el (.jsonOf ⟨none, lvl, rec⟩)).el.dataRiskScore =
        some "undefined" ∧
      (analyzeLinkElement st el (.jsonOf ⟨none, lvl, rec⟩)).el.border =
        el.border ∧
      (analyzeLinkElement st el
          (.jsonOf ⟨none, lvl, rec⟩)).el.backgroundColor =
        el.backgroundColor ∧
      (analyzeLinkElement st el (.jsonOf ⟨none, lvl, rec⟩)).el.badges =
        el.badges ∧
      handleLinkClick (analyzeLinkElement st el (.jsonOf ⟨none, lvl, rec⟩)).el
        p = noInterception) := by
  have hstep : analyzeLinkElement st el .throwErr =
      { st := el.href :: st
        el := el
        events := [.memCheck el.href false, .insert el.href,
          .netRequest el.href]
        logs := [.linkAnalysisFailed] } := by
    unfold analyzeLinkElement
    simp [hnew, hhttp]
  refine ⟨by rw [hstep], by rw [hstep], by rw [hstep], ?_, ?_, ?_⟩
  · intro f'
    rw [hstep]
    rw [analyzeLinkElement_dispatches]
    simp
  · rw [hstep]
    simp [handleLinkClick, hfresh, jsOrDefault, parseIntJS, parseIntCore,
      digitsToNat, geNaN, noInterception]
  · intro lvl rec
    have hstep2 : analyzeLinkElement st el (.jsonOf ⟨none, lvl, rec⟩) =
        { st := el.href :: st
          el := annotateOnScored el ⟨none, lvl, rec⟩
          events := [.memCheck el.href false, .insert el.href,
            .netRequest el.href]
          logs := [] } := by
      unfold analyzeLinkElement
      simp [hnew, hhttp]
    rw [hstep2]
    refine ⟨rfl, ?_, ?_, ?_, ?_⟩
    · simp [annotateOnScored, addRiskIndicator, geNaN]
    · simp [annotateOnScored, addRiskIndicator, geNaN]
    · simp [annotateOnScored, addRiskIndicator, geNaN]
    · have hattr : (annotateOnScored el ⟨none, lvl, rec⟩).dataRiskScore =
          some "undefined" := rfl
      simp [handleLinkClick, hattr, jsOrDefault, parseIntJS, parseIntCore,
        geNaN, noInterception]

/-- Concrete instance of the amended C4 on a failing network call. -/
theorem claim_c4_witness :
    (analyzeLinkElement [] (freshLink "http://down.example/") .throwErr).el =
      freshLink "http://down.example/" ∧
    (analyzeLinkElement [] (freshLink "http://down.example/")
        .throwErr).logs = [.linkAnalysisFailed] ∧
    handleLinkClick
      (analyzeLinkElement [] (freshLink "http://down.example/")
        .throwErr).el true = noInterception := by
  have h := claim_c4_amended [] (freshLink "http://down.example/") true rfl
    (by decide) (by simp)
  exact ⟨h.1, h.2.1, h.2.2.2.2.1⟩

/-- Claim C6: the reactive path always issues a scoring request for the
target URL (also when the request then fails); on a completed analysis it
increments `urlsScanned`, increments `threatsBlocked` exactly when the
fresh score is at least 70, sets `lastScan`, and writes the snapshot to
storage; it redirects the tab to about:blank exactly when the score is at
least 70, raises a priority-2 notification exactly in that case, and the
notification tiers coincide with the proactive gate's `classify`
thresholds. -/
theorem claim_c6_reactive_path (stats : Stats) (now url : String)
    (result : JsScoreResult) (s : Int)
    (hs : result.risk_score = some s) :
    (analyzeURL stats now url (.jsonOf result)).2.requests = [url] ∧
    (analyzeURL stats now url .throwErr).2.requests = [url] ∧
    (analyzeURL stats now url (.jsonOf result)).1.urlsScanned =
      stats.urlsScanned + 1 ∧
    ((analyzeURL stats now url (.jsonOf result)).1.threatsBlocked =
        stats.threatsBlocked + 1 ↔ 70 ≤ s) ∧
    ((analyzeURL stats now url (.jsonOf result)).1.threatsBlocked =
        stats.threatsBlocked ↔ ¬ 70 ≤ s) ∧
    (analyzeURL stats now url (.jsonOf result)).1.lastScan = some now ∧
    (analyzeURL stats now url (.jsonOf result)).2.storageWrites =
      [(analyzeURL stats now url (.jsonOf result)).1] ∧
    ((analyzeURL stats now url (.jsonOf result)).2.tabUpdates =
        ["about:blank"] ↔ 70 ≤ s) ∧
    ((∃ n ∈ (analyzeURL stats now url (.jsonOf result)).2.notifications,
        n.priority = 2) ↔ 70 ≤ s) ∧
    ((showNotification result).priority =
      match classify (some s) with
      | .deny => 2
      | .warn => 1
      | .allow => 0) := by
  obtain ⟨rs, rl, rc⟩ := result
  simp only at hs
  subst hs
  by_cases h70 : (70 : Int) ≤ s
  · have hb : geNaN (some s) 70 = true := by simp [geNaN, h70]
    refine ⟨by simp [analyzeURL, hb], rfl, ?_, ?_, ?_, ?_, ?_, ?_, ?_, ?_⟩
    · simp [analyzeURL, hb]
    · simp [analyzeURL, hb, h70]
    · simp [analyzeURL, hb, h70]
    · simp [analyzeURL, hb]
    · simp [analyzeURL, hb]
    · simp [analyzeURL, hb, h70]
    · simp only [analyzeURL, hb, if_true]
      constructor
      · intro _; exact h70
      · intro _
        refine ⟨{ title := "🚨 THREAT BLOCKED"
                  message := "High-risk URL detected and blocked!\nRisk Score: " ++
                    jsNumToString (some s) ++ "/100"
                  priority := 2 }, ?_, rfl⟩
        simp
    · simp [showNotification, classify, geNaN, h70, hb]
  · have hb : geNaN (some s) 70 = false := by simp [geNaN, h70]
    refine ⟨by simp [analyzeURL, hb], rfl, ?_, ?_, ?_, ?_, ?_, ?_, ?_, ?_⟩
    · simp [analyzeURL, hb]
    · simp [analyzeURL, hb, h70]
    · simp [analyzeURL, hb, h70]
    · simp [analyzeURL, hb]
    · simp [analyzeURL, hb]
    · simp [analyzeURL, hb, h70]
    · simp only [analyzeURL, hb, if_false, Bool.false_eq_true]
      constructor
      · rintro ⟨n, hn, hp⟩
        simp at hn
        subst hn
        by_cases h40 : (40 : Int) ≤ s <;>
          simp [showNotification, geNaN, h70, h40] at hp
      · intro h; exact absurd h h70
    · by_cases h40 : (40 : Int) ≤ s <;>
        simp [showNotification, classify, geNaN, h70, h40, hb]

/-- Concrete instance of C6 at a fresh score of 85. -/
theorem claim_c6_witness :
    (analyzeURL ⟨3, 1, none⟩ "t0" "http://x.example/"
        (.jsonOf ⟨some 85, some "HIGH RISK", some "block"⟩)).1 =
      ⟨4, 2, some "t0"⟩ ∧
    (analyzeURL ⟨3, 1, none⟩ "t0" "http://x.example/"
        (.jsonOf ⟨some 85, some "HIGH RISK", some "block"⟩)).2.tabUpdates =
      ["about:blank"] := by
  have h := claim_c6_reactive_path ⟨3, 1, none⟩ "t0" "http://x.example/"
    ⟨some 85, some "HIGH RISK", some "block"⟩ 85 rfl
  refine ⟨?_, h.2.2.2.2.2.2.2.1.mpr (by decide)⟩
  have h1 := h.2.2.1
  have h2 := h.2.2.2.1.mpr (by decide)
  have h3 := h.2.2.2.2.2.1
  cases he : (analyzeURL ⟨3, 1, none⟩ "t0" "http://x.example/"
      (.jsonOf ⟨some 85, some "HIGH RISK", some "block"⟩)).1
  rw [he] at h1 h2 h3
  simp at h1 h2 h3
  simp [h1, h2, h3]

/-- Claim C7: the initial full-document scan schedules the analysis of
link `i` (0-indexed, in document order) at exactly `i * 100` milliseconds
after scan start, and schedules nothing else. -/
theorem claim_c7_stagger (links : List LinkElement) (i : Nat) :
    (scanAllLinks links).get? i =
      (links.get? i).map (fun el => (i * 100, el)) ∧
    (scanAllLinks links).length = links.length := by
  constructor
  · simp only [scanAllLinks, List.get?_map, List.get?_enum]
    cases links.get? i <;> rfl
  · simp [scanAllLinks]

/-- Claim C8: the mutation watcher dispatches every qualifying link of an
inserted subtree — the root if it is itself an anchor with an href, and
every qualifying descendant — each with delay 0, with no per-index
stagger. -/
theorem claim_c8_mutation_immediate (n : DomNode) :
    handleAddedNode n = (linksIn n).map (fun u => (0, u)) := by
  cases n with
  | text s => rfl
  | element tag href children =>
      simp [handleAddedNode, linksIn, List.map_append]

/-- Refutation of claim C9 as stated: an INFO-tier score (20-39) and a
SAFE-tier score (0-19) receive no border and no background at all — the
code styles only the top two tiers, so there is no distinct
border/background for every one of the four tiers. -/
theorem claim_c9_counterexample :
    (addRiskIndicator (freshLink "http://a.example/")
        ⟨some 20, some "LOW RISK", none⟩).border = none ∧
    (addRiskIndicator (freshLink "http://a.example/")
        ⟨some 20, some "LOW RISK", none⟩).backgroundColor = none ∧
    (addRiskIndicator (freshLink "http://a.example/")
        ⟨some 5, some "SAFE", none⟩).border = none ∧
    (addRiskIndicator (freshLink "http://a.example/")
        ⟨some 5, some "SAFE", none⟩).backgroundColor = none := by
  refine ⟨rfl, rfl, rfl, rfl⟩

/-- Claim C9 as amended: on a scored response the element receives the two
durable attributes; a distinct border and background are applied for the
BLOCK and WARN tiers only, while INFO and SAFE leave border and background
untouched; every tier gets a distinct glyph in the tooltip; and the glyph
badge is appended exactly when the score is at least 40. -/
theorem claim_c9_amended (st : List String) (el : LinkElement)
    (result : JsScoreResult) (s : Int) (hs : result.risk_score = some s)
    (hhttp : isHttp el.href = true) (hnew : el.href ∉ st) :
    (analyzeLinkElement st el (.jsonOf result)).el.dataRiskScore =
      some (toString s) ∧
    (analyzeLinkElement st el (.jsonOf result)).el.dataRiskLevel =
      some (jsStrToString result.risk_level) ∧
    (analyzeLinkElement st el (.jsonOf result)).el.border =
      (if 70 ≤ s then some "2px solid #ef4444"
        else if 40 ≤ s then some "2px solid #f59e0b" else el.border) ∧
    (analyzeLinkElement st el (.jsonOf result)).el.backgroundColor =
      (if 70 ≤ s then some "#fee2e2"
        else if 40 ≤ s then some "#fef3c7" else el.backgroundColor) ∧
    (analyzeLinkElement st el (.jsonOf result)).el.badges =
      (if 40 ≤ s then el.badges ++ [riskEmoji (some s)] else el.badges) ∧
    (analyzeLinkElement st el (.jsonOf result)).el.title =
      some (riskEmoji (some s) ++ " Risk Score: " ++ toString s ++
        "/100 - " ++ jsStrToString result.risk_level) ∧
    (riskEmoji (some 85) ≠ riskEmoji (some 55) ∧
      riskEmoji (some 55) ≠ riskEmoji (some 25) ∧
      riskEmoji (some 25) ≠ riskEmoji (some 5) ∧
      riskEmoji (some 85) ≠ riskEmoji (some 25) ∧
      riskEmoji (some 85) ≠ riskEmoji (some 5) ∧
      riskEmoji (some 55) ≠ riskEmoji (some 5)) := by
  obtain ⟨rs, rl, rc⟩ := result
  simp only at hs
  subst hs
  have hstep : analyzeLinkElement st el (.jsonOf ⟨some s, rl, rc⟩) =
      { st := el.href :: st
        el := annotateOnScored el ⟨some s, rl, rc⟩
        events := [.memCheck el.href false, .insert el.href,
          .netRequest el.href]
        logs := [] } := by
    unfold analyzeLinkElement
    simp [hnew, hhttp]
  rw [hstep]
  refine ⟨rfl, rfl, ?_, ?_, ?_, ?_, ?_⟩
  · by_cases h70 : (70 : Int) ≤ s <;> by_cases h40 : (40 : Int) ≤ s <;>
      simp [annotateOnScored, addRiskIndicator, geNaN, h70, h40]
  · by_cases h70 : (70 : Int) ≤ s <;> by_cases h40 : (40 : Int) ≤ s <;>
      simp [annotateOnScored, addRiskIndicator, geNaN, h70, h40]
  · by_cases h70 : (70 : Int) ≤ s <;> by_cases h40 : (40 : Int) ≤ s <;>
      simp [annotateOnScored, addRiskIndicator, geNaN, h70, h40]
  · by_cases h70 : (70 : Int) ≤ s <;> by_cases h40 : (40 : Int) ≤ s <;>
      simp [annotateOnScored, addRiskIndicator, riskEmoji, jsNumToString,
        geNaN, h70, h40]
  · refine ⟨by decide, by decide, by decide, by decide, by decide, by decide⟩

/-- Concrete instance of the amended C9 at score 85: the durable score
attribute is written. -/
theorem claim_c9_witness :
    (analyzeLinkElement [] (freshLink "http://w.example/")
        (.jsonOf ⟨some 85, some "HIGH RISK", none⟩)).el.dataRiskScore =
      some (toString (85 : Int)) :=
  (claim_c9_amended [] (freshLink "http://w.example/")
    ⟨some 85, some "HIGH RISK", none⟩ 85 rfl (by decide) (by simp)).1

end FraudDetection
